import Mathlib

/-! Shallow embedding of the OpenGL state-mediation layer of the LLGL renderer:
the class GLStateManager from sources/Renderer/OpenGL/RenderState/GLStateManager.cpp
and the validation decorator DbgCommandBuffer from the DebugLayer.
Each mutating member function is modelled as a pure function from a manager
state to a pair of the successor state and the list of native OpenGL calls the
operation issues.  Native calls whose GLenum argument is drawn from one of the
fixed lookup tables of the source (stateCapsMap, bufferTargetsMap,
textureTargetsMap, textureLayersMap) are recorded by the table index; every one
of those tables is injective, so recording the index loses no information.
Fixed-size arrays indexed by a closed enumeration are modelled as total
functions; an out-of-range index is a caller-contract violation in the source
(section 4.1 of the spec) and is never exercised here. -/

namespace LLGL

/-- Buffer-binding targets, in the order of the bufferTargetsMap table of
GLStateManager.cpp (the enum class GLBufferTarget is kept in lock-step with
that table). -/
inductive GLBufferTarget where
  | ARRAY_BUFFER
  | ATOMIC_COUNTER_BUFFER
  | COPY_READ_BUFFER
  | COPY_WRITE_BUFFER
  | DISPATCH_INDIRECT_BUFFER
  | DRAW_INDIRECT_BUFFER
  | ELEMENT_ARRAY_BUFFER
  | PIXEL_PACK_BUFFER
  | PIXEL_UNPACK_BUFFER
  | QUERY_BUFFER
  | SHADER_STORAGE_BUFFER
  | TEXTURE_BUFFER
  | TRANSFORM_FEEDBACK_BUFFER
  | UNIFORM_BUFFER
deriving DecidableEq, Repr

/-- Texture-binding targets, in the order of the textureTargetsMap table of
GLStateManager.cpp. -/
inductive GLTextureTarget where
  | TEXTURE_1D
  | TEXTURE_2D
  | TEXTURE_3D
  | TEXTURE_1D_ARRAY
  | TEXTURE_2D_ARRAY
  | TEXTURE_RECTANGLE
  | TEXTURE_CUBE_MAP
  | TEXTURE_CUBE_MAP_ARRAY
  | TEXTURE_BUFFER
  | TEXTURE_2D_MULTISAMPLE
  | TEXTURE_2D_MULTISAMPLE_ARRAY
deriving DecidableEq, Repr

/-- Abstract texture types of the LLGL front end (LLGL/TextureFlags.h), in the
declaration order implied by the ordered comparisons of TextureFlags.cpp:
the array types start at Texture1DArray and the multisample types come last. -/
inductive TextureType where
  | Texture1D
  | Texture2D
  | Texture3D
  | TextureCube
  | Texture1DArray
  | Texture2DArray
  | TextureCubeArray
  | Texture2DMS
  | Texture2DMSArray
deriving DecidableEq, Repr

/-- The GLenum value GL_FRONT. -/
def GL_FRONT : Nat := 0x0404

/-- The GLenum value GL_BACK. -/
def GL_BACK : Nat := 0x0405

/-- The GLenum value GL_FRONT_AND_BACK. -/
def GL_FRONT_AND_BACK : Nat := 0x0408

/-- The GLenum value GL_COLOR_ATTACHMENT0. -/
def GL_COLOR_ATTACHMENT0 : Nat := 0x8CE0

/-- A color write mask, as passed to glColorMask (four GLbooleans). -/
structure GLColorMask where
  r : Bool
  g : Bool
  b : Bool
  a : Bool
deriving DecidableEq, Repr

/-- One blend-state entry as consumed by GLStateManager::SetBlendStates: a
color mask and the four blend factors (GLenums). -/
structure GLBlend where
  colorMask : GLColorMask
  srcColor  : Nat
  destColor : Nat
  srcAlpha  : Nat
  destAlpha : Nat
deriving DecidableEq, Repr

/-- One face's stencil state as mirrored by GLStateManager (struct GLStencil):
the op triple, the func/ref/mask triple, and the write mask.  ref is a GLint. -/
structure GLStencil where
  sfail     : Nat
  dpfail    : Nat
  dppass    : Nat
  func      : Nat
  ref       : Int
  mask      : Nat
  writeMask : Nat
deriving DecidableEq, Repr

/-- A native OpenGL call issued by the state manager.  Capability, buffer
target, texture target and texture layer arguments are recorded as the index
into the respective (injective) lookup table of GLStateManager.cpp. -/
inductive GLCall where
  | glEnable (cap : Nat)
  | glDisable (cap : Nat)
  | glColorMask (r g b a : Bool)
  | glBlendFuncSeparate (srcColor destColor srcAlpha destAlpha : Nat)
  | glColorMaski (drawBuffer : Nat) (r g b a : Bool)
  | glBlendFuncSeparatei (drawBuffer srcColor destColor srcAlpha destAlpha : Nat)
  | glDrawBuffer (buf : Nat)
  | glDepthFunc (func : Nat)
  | glStencilOpSeparate (face sfail dpfail dppass : Nat)
  | glStencilFuncSeparate (face func : Nat) (ref : Int) (mask : Nat)
  | glStencilMaskSeparate (face writeMask : Nat)
  | glPolygonMode (face mode : Nat)
  | glCullFace (face : Nat)
  | glFrontFace (mode : Nat)
  | glDepthMask (flag : Bool)
  | glBindBuffer (target : GLBufferTarget) (buffer : Nat)
  | glBindBufferBase (target : GLBufferTarget) (index buffer : Nat)
  | glBindVertexArray (buffer : Nat)
  | glActiveTexture (layer : Nat)
  | glBindTexture (target : GLTextureTarget) (texture : Nat)
  | glUseProgram (program : Nat)
deriving DecidableEq, Repr

/-- Runtime-detected optional entry points consulted by SetBlendState: whether
the function pointers glBlendFuncSeparatei and glColorMaski are non-null. -/
structure GLExtensions where
  hasBlendFuncSeparatei : Bool
  hasColorMaski : Bool
deriving DecidableEq, Repr

/-- The struct GLCommonState mirrored by the state manager (depth func, the two
stencil faces, polygon mode, cull face, front face, depth mask, color mask).
Its default member values live in GLStateManager.h, which is not part of the
sources at hand, so constructions below stay parametric in an initial value. -/
structure GLCommonState where
  depthFunc    : Nat
  stencilFront : GLStencil
  stencilBack  : GLStencil
  polygonMode  : Nat
  cullFace     : Nat
  frontFace    : Nat
  depthMask    : Bool
  colorMask    : GLColorMask
deriving DecidableEq, Repr

/-- The mirrored state owned by one GLStateManager: capability values and their
save stack, the common render state, buffer bindings and their save stack, the
per-layer texture binding tables with the active layer index and the texture
save stack, and the bound shader program with its save stack.  Capability
indices are the positions into stateCapsMap; texture layers are the positions
into textureLayersMap.  The activeTextureLayer_ pointer of the source always
points at layers[activeTexture], so it is represented by the index alone. -/
structure GLStateManager where
  renderStateValues : Nat → Bool
  valueStack        : List (Nat × Bool)
  commonState       : GLCommonState
  boundBuffers      : GLBufferTarget → Nat
  boundBufferStack  : List (GLBufferTarget × Nat)
  textureLayers     : Nat → GLTextureTarget → Nat
  activeTexture     : Nat
  boundTextureStack : List (Nat × GLTextureTarget × Nat)
  boundProgram      : Nat
  boundProgramStack : List Nat
  exts              : GLExtensions

/-- Result of one mutating member function: the successor state paired with
the native calls issued, in order. -/
abbrev GLResult := GLStateManager × List GLCall

/-- GLStateManager::Set(GLState, bool): update the capability mirror and call
glEnable or glDisable only when the mirrored value differs. -/
def GLStateManager.Set (s : GLStateManager) (state : Nat) (value : Bool) : GLResult :=
  if s.renderStateValues state ≠ value then
    ({ s with renderStateValues := fun c => if c = state then value else s.renderStateValues c },
      [if value then GLCall.glEnable state else GLCall.glDisable state])
  else
    (s, [])

/-- GLStateManager::Enable(GLState). -/
def GLStateManager.Enable (s : GLStateManager) (state : Nat) : GLResult :=
  if ¬ s.renderStateValues state then
    ({ s with renderStateValues := fun c => if c = state then true else s.renderStateValues c },
      [GLCall.glEnable state])
  else
    (s, [])

/-- GLStateManager::Disable(GLState). -/
def GLStateManager.Disable (s : GLStateManager) (state : Nat) : GLResult :=
  if s.renderStateValues state then
    ({ s with renderStateValues := fun c => if c = state then false else s.renderStateValues c },
      [GLCall.glDisable state])
  else
    (s, [])

/-- GLStateManager::IsEnabled(GLState): a pure read of the mirror. -/
def GLStateManager.IsEnabled (s : GLStateManager) (state : Nat) : Bool :=
  s.renderStateValues state

/-- GLStateManager::PushState(GLState): push the state index together with the
currently mirrored value; no native call. -/
def GLStateManager.PushState (s : GLStateManager) (state : Nat) : GLResult :=
  ({ s with valueStack := (state, s.renderStateValues state) :: s.valueStack }, [])

/-- GLStateManager::PopState(): re-apply the value on top of the stack through
Set, then pop it.  Popping an empty stack is undefined behavior in the source
(std::stack::top on an empty stack); the empty branch here is never relied on. -/
def GLStateManager.PopState (s : GLStateManager) : GLResult :=
  match s.valueStack with
  | [] => (s, [])
  | top :: rest =>
      let r := GLStateManager.Set s top.1 top.2
      ({ r.1 with valueStack := rest }, r.2)

/-- GLStateManager::PopStates(std::size_t): pop the given number of entries. -/
def GLStateManager.PopStates (s : GLStateManager) : Nat → GLResult
  | 0 => (s, [])
  | n + 1 =>
      let r := s.PopState
      let r2 := r.1.PopStates n
      (r2.1, r.2 ++ r2.2)

/-- GLStateManager::SetBlendState(GLuint, const GLBlend&, bool): per-drawbuffer
application.  When both optional entry points glBlendFuncSeparatei and
glColorMaski are available the indexed calls are used; otherwise the source
selects the draw buffer with glDrawBuffer and uses the global calls.  Neither
branch consults or updates any mirror. -/
def GLStateManager.SetBlendState (s : GLStateManager) (drawBuffer : Nat)
    (state : GLBlend) (blendEnabled : Bool) : GLResult :=
  if s.exts.hasBlendFuncSeparatei ∧ s.exts.hasColorMaski then
    (s, GLCall.glColorMaski drawBuffer state.colorMask.r state.colorMask.g
          state.colorMask.b state.colorMask.a ::
        (if blendEnabled then
          [GLCall.glBlendFuncSeparatei drawBuffer state.srcColor state.destColor
            state.srcAlpha state.destAlpha]
        else []))
  else
    (s, GLCall.glDrawBuffer drawBuffer ::
        GLCall.glColorMask state.colorMask.r state.colorMask.g
          state.colorMask.b state.colorMask.a ::
        (if blendEnabled then
          [GLCall.glBlendFuncSeparate state.srcColor state.destColor
            state.srcAlpha state.destAlpha]
        else []))

/-- The loop body of the multi-element branch of SetBlendStates: apply one
state per draw buffer, starting at GL_COLOR_ATTACHMENT0 and incrementing. -/
def GLStateManager.SetBlendStatesLoop (s : GLStateManager) (drawBuffer : Nat)
    (blendStates : List GLBlend) (blendEnabled : Bool) : GLResult :=
  match blendStates with
  | [] => (s, [])
  | st :: rest =>
      let r := s.SetBlendState drawBuffer st blendEnabled
      let r2 := r.1.SetBlendStatesLoop (drawBuffer + 1) rest blendEnabled
      (r2.1, r.2 ++ r2.2)

/-- GLStateManager::SetBlendStates(const std::vector of GLBlend, bool): a
single-element list updates the global color mask through the mirror and, when
blending is enabled, calls glBlendFuncSeparate unconditionally; a longer list
applies one state per draw buffer through SetBlendState. -/
def GLStateManager.SetBlendStates (s : GLStateManager) (blendStates : List GLBlend)
    (blendEnabled : Bool) : GLResult :=
  match blendStates with
  | [state] =>
      let r :=
        if s.commonState.colorMask ≠ state.colorMask then
          ({ s with commonState := { s.commonState with colorMask := state.colorMask } },
            [GLCall.glColorMask state.colorMask.r state.colorMask.g
              state.colorMask.b state.colorMask.a])
        else (s, [])
      (r.1, r.2 ++
        (if blendEnabled then
          [GLCall.glBlendFuncSeparate state.srcColor state.destColor
            state.srcAlpha state.destAlpha]
        else []))
  | _ :: _ :: _ => s.SetBlendStatesLoop GL_COLOR_ATTACHMENT0 blendStates blendEnabled
  | [] => (s, [])

/-- GLStateManager::SetDepthFunc(GLenum): mirrored through commonState_. -/
def GLStateManager.SetDepthFunc (s : GLStateManager) (func : Nat) : GLResult :=
  if s.commonState.depthFunc ≠ func then
    ({ s with commonState := { s.commonState with depthFunc := func } },
      [GLCall.glDepthFunc func])
  else (s, [])

/-- The private two-argument overload GLStateManager::SetStencilState(GLenum,
GLStencil&, const GLStencil&), acting on one mirrored face: each of the three
sub-fields (op triple, func/ref/mask triple, write mask) is compared and
applied independently.  Returns the updated mirrored face and the calls. -/
def setStencilFace (face : Nat) (dst src : GLStencil) : GLStencil × List GLCall :=
  let r1 :=
    if dst.sfail ≠ src.sfail ∨ dst.dpfail ≠ src.dpfail ∨ dst.dppass ≠ src.dppass then
      ({ dst with sfail := src.sfail, dpfail := src.dpfail, dppass := src.dppass },
        [GLCall.glStencilOpSeparate face src.sfail src.dpfail src.dppass])
    else (dst, [])
  let r2 :=
    if r1.1.func ≠ src.func ∨ r1.1.ref ≠ src.ref ∨ r1.1.mask ≠ src.mask then
      ({ r1.1 with func := src.func, ref := src.ref, mask := src.mask },
        [GLCall.glStencilFuncSeparate face src.func src.ref src.mask])
    else (r1.1, [])
  let r3 :=
    if r2.1.writeMask ≠ src.writeMask then
      ({ r2.1 with writeMask := src.writeMask },
        [GLCall.glStencilMaskSeparate face src.writeMask])
    else (r2.1, [])
  (r3.1, r1.2 ++ r2.2 ++ r3.2)

/-- GLStateManager::SetStencilState(GLenum, const GLStencil&): dispatch on the
face; GL_FRONT_AND_BACK applies the front face and then the back face, each
against its own mirrored sub-state; any other enum falls through the switch
and does nothing. -/
def GLStateManager.SetStencilState (s : GLStateManager) (face : Nat)
    (state : GLStencil) : GLResult :=
  if face = GL_FRONT then
    let r := setStencilFace GL_FRONT s.commonState.stencilFront state
    ({ s with commonState := { s.commonState with stencilFront := r.1 } }, r.2)
  else if face = GL_BACK then
    let r := setStencilFace GL_BACK s.commonState.stencilBack state
    ({ s with commonState := { s.commonState with stencilBack := r.1 } }, r.2)
  else if face = GL_FRONT_AND_BACK then
    let r1 := setStencilFace GL_FRONT s.commonState.stencilFront state
    let r2 := setStencilFace GL_BACK s.commonState.stencilBack state
    ({ s with commonState :=
        { s.commonState with stencilFront := r1.1, stencilBack := r2.1 } },
      r1.2 ++ r2.2)
  else (s, [])

/-- GLStateManager::SetPolygonMode(GLenum). -/
def GLStateManager.SetPolygonMode (s : GLStateManager) (mode : Nat) : GLResult :=
  if s.commonState.polygonMode ≠ mode then
    ({ s with commonState := { s.commonState with polygonMode := mode } },
      [GLCall.glPolygonMode GL_FRONT_AND_BACK mode])
  else (s, [])

/-- GLStateManager::SetCullFace(GLenum). -/
def GLStateManager.SetCullFace (s : GLStateManager) (face : Nat) : GLResult :=
  if s.commonState.cullFace ≠ face then
    ({ s with commonState := { s.commonState with cullFace := face } },
      [GLCall.glCullFace face])
  else (s, [])

/-- GLStateManager::SetFrontFace(GLenum). -/
def GLStateManager.SetFrontFace (s : GLStateManager) (mode : Nat) : GLResult :=
  if s.commonState.frontFace ≠ mode then
    ({ s with commonState := { s.commonState with frontFace := mode } },
      [GLCall.glFrontFace mode])
  else (s, [])

/-- GLStateManager::SetDepthMask(GLboolean). -/
def GLStateManager.SetDepthMask (s : GLStateManager) (flag : Bool) : GLResult :=
  if s.commonState.depthMask ≠ flag then
    ({ s with commonState := { s.commonState with depthMask := flag } },
      [GLCall.glDepthMask flag])
  else (s, [])

/-- GLStateManager::BindBuffer(GLBufferTarget, GLuint): only bind when the
mirrored binding for the target changed. -/
def GLStateManager.BindBuffer (s : GLStateManager) (target : GLBufferTarget)
    (buffer : Nat) : GLResult :=
  if s.boundBuffers target ≠ buffer then
    ({ s with boundBuffers := fun t => if t = target then buffer else s.boundBuffers t },
      [GLCall.glBindBuffer target buffer])
  else (s, [])

/-- GLStateManager::BindBufferBase(GLBufferTarget, GLuint, GLuint): always
bind; the mirrored slot for the target is overwritten unconditionally. -/
def GLStateManager.BindBufferBase (s : GLStateManager) (target : GLBufferTarget)
    (index buffer : Nat) : GLResult :=
  ({ s with boundBuffers := fun t => if t = target then buffer else s.boundBuffers t },
    [GLCall.glBindBufferBase target index buffer])

/-- GLStateManager::BindVertexArray(GLuint): always bind the vertex array and
zero the mirrored ARRAY_BUFFER and ELEMENT_ARRAY_BUFFER slots. -/
def GLStateManager.BindVertexArray (s : GLStateManager) (buffer : Nat) : GLResult :=
  ({ s with boundBuffers := fun t =>
      if t = GLBufferTarget.ARRAY_BUFFER ∨ t = GLBufferTarget.ELEMENT_ARRAY_BUFFER
      then 0 else s.boundBuffers t },
    [GLCall.glBindVertexArray buffer])

/-- GLStateManager::ForcedBindBuffer(GLBufferTarget, GLuint): bypass the
redundancy check deliberately. -/
def GLStateManager.ForcedBindBuffer (s : GLStateManager) (target : GLBufferTarget)
    (buffer : Nat) : GLResult :=
  ({ s with boundBuffers := fun t => if t = target then buffer else s.boundBuffers t },
    [GLCall.glBindBuffer target buffer])

/-- GLStateManager::PushBoundBuffer(GLBufferTarget): push the target together
with its currently mirrored binding; no native call. -/
def GLStateManager.PushBoundBuffer (s : GLStateManager) (target : GLBufferTarget) : GLResult :=
  ({ s with boundBufferStack := (target, s.boundBuffers target) :: s.boundBufferStack }, [])

/-- GLStateManager::PopBoundBuffer(): re-apply the top entry through BindBuffer
then pop it.  Popping an empty stack is undefined behavior in the source. -/
def GLStateManager.PopBoundBuffer (s : GLStateManager) : GLResult :=
  match s.boundBufferStack with
  | [] => (s, [])
  | top :: rest =>
      let r := s.BindBuffer top.1 top.2
      ({ r.1 with boundBufferStack := rest }, r.2)

/-- GLStateManager::ActiveTexture(unsigned int): switch the active layer and
call glActiveTexture only when the layer changed.  The source also redirects
the activeTextureLayer_ pointer, represented here by the index itself. -/
def GLStateManager.ActiveTexture (s : GLStateManager) (layer : Nat) : GLResult :=
  if s.activeTexture ≠ layer then
    ({ s with activeTexture := layer }, [GLCall.glActiveTexture layer])
  else (s, [])

/-- GLStateManager::BindTexture(GLTextureTarget, GLuint): only bind when the
currently active layer's slot for the target changed. -/
def GLStateManager.BindTexture (s : GLStateManager) (target : GLTextureTarget)
    (texture : Nat) : GLResult :=
  if s.textureLayers s.activeTexture target ≠ texture then
    ({ s with textureLayers := fun l t =>
        if l = s.activeTexture ∧ t = target then texture else s.textureLayers l t },
      [GLCall.glBindTexture target texture])
  else (s, [])

/-- GLStateManager::ForcedBindTexture(GLTextureTarget, GLuint): always bind. -/
def GLStateManager.ForcedBindTexture (s : GLStateManager) (target : GLTextureTarget)
    (texture : Nat) : GLResult :=
  ({ s with textureLayers := fun l t =>
      if l = s.activeTexture ∧ t = target then texture else s.textureLayers l t },
    [GLCall.glBindTexture target texture])

/-- GLStateManager::PushBoundTexture(unsigned int, GLTextureTarget): push the
explicit layer, the target and the binding mirrored at that (layer, target)
pair, independently of which layer is active; no native call. -/
def GLStateManager.PushBoundTexture (s : GLStateManager) (layer : Nat)
    (target : GLTextureTarget) : GLResult :=
  ({ s with boundTextureStack :=
      (layer, target, s.textureLayers layer target) :: s.boundTextureStack }, [])

/-- GLStateManager::PopBoundTexture(): re-activate the recorded layer, re-bind
the recorded texture through BindTexture, then pop.  Popping an empty stack is
undefined behavior in the source. -/
def GLStateManager.PopBoundTexture (s : GLStateManager) : GLResult :=
  match s.boundTextureStack with
  | [] => (s, [])
  | top :: rest =>
      let r1 := s.ActiveTexture top.1
      let r2 := r1.1.BindTexture top.2.1 top.2.2
      ({ r2.1 with boundTextureStack := rest }, r1.2 ++ r2.2)

/-- The file-static helper GetTextureTarget(const TextureType): convert the
abstract texture type to a GL texture target; the seven listed types are
mapped, every other type reaches the default branch and throws
std::invalid_argument, modelled as Except.error with the source's message. -/
def GetTextureTarget : TextureType → Except String GLTextureTarget
  | TextureType.Texture1D        => Except.ok GLTextureTarget.TEXTURE_1D
  | TextureType.Texture2D        => Except.ok GLTextureTarget.TEXTURE_2D
  | TextureType.Texture3D        => Except.ok GLTextureTarget.TEXTURE_3D
  | TextureType.TextureCube      => Except.ok GLTextureTarget.TEXTURE_CUBE_MAP
  | TextureType.Texture1DArray   => Except.ok GLTextureTarget.TEXTURE_1D_ARRAY
  | TextureType.Texture2DArray   => Except.ok GLTextureTarget.TEXTURE_2D_ARRAY
  | TextureType.TextureCubeArray => Except.ok GLTextureTarget.TEXTURE_CUBE_MAP_ARRAY
  | _ => Except.error "failed to convert texture type to OpenGL texture target"

/-- A GLTexture object as far as the state manager reads it: its abstract
texture type and its native id. -/
structure GLTexture where
  type : TextureType
  id   : Nat
deriving DecidableEq, Repr

/-- The overload GLStateManager::BindTexture(const GLTexture&): convert the
type first (which may throw, propagated as Except.error before any mirror
update or native call), then bind through the target/id overload. -/
def GLStateManager.BindTextureObj (s : GLStateManager) (texture : GLTexture) :
    Except String GLResult :=
  match GetTextureTarget texture.type with
  | Except.error e => Except.error e
  | Except.ok t => Except.ok (s.BindTexture t texture.id)

/-- The overload GLStateManager::ForcedBindTexture(const GLTexture&). -/
def GLStateManager.ForcedBindTextureObj (s : GLStateManager) (texture : GLTexture) :
    Except String GLResult :=
  match GetTextureTarget texture.type with
  | Except.error e => Except.error e
  | Except.ok t => Except.ok (s.ForcedBindTexture t texture.id)

/-- GLStateManager::BindShaderProgram(GLuint): redundancy-checked glUseProgram. -/
def GLStateManager.BindShaderProgram (s : GLStateManager) (program : Nat) : GLResult :=
  if s.boundProgram ≠ program then
    ({ s with boundProgram := program }, [GLCall.glUseProgram program])
  else (s, [])

/-- GLStateManager::PushShaderProgram(). -/
def GLStateManager.PushShaderProgram (s : GLStateManager) : GLResult :=
  ({ s with boundProgramStack := s.boundProgram :: s.boundProgramStack }, [])

/-- GLStateManager::PopShaderProgram(): re-bind the top entry then pop it. -/
def GLStateManager.PopShaderProgram (s : GLStateManager) : GLResult :=
  match s.boundProgramStack with
  | [] => (s, [])
  | top :: rest =>
      let r := s.BindShaderProgram top
      ({ r.1 with boundProgramStack := rest }, r.2)

/-- The constructor GLStateManager::GLStateManager(): fill every capability
mirror with false, every buffer slot and every texture slot of every layer
with 0, and point the active texture layer at layer 0.  The common state, the
extension pointers and the initial bound program come from field initializers
in the header (not among the sources at hand) and stay parametric. -/
def GLStateManager.init (cs : GLCommonState) (exts : GLExtensions)
    (program0 : Nat) : GLStateManager where
  renderStateValues := fun _ => false
  valueStack := []
  commonState := cs
  boundBuffers := fun _ => 0
  boundBufferStack := []
  textureLayers := fun _ _ => 0
  activeTexture := 0
  boundTextureStack := []
  boundProgram := program0
  boundProgramStack := []
  exts := exts

/-- Construction including the effect on the class-static active-instance
pointer (GLStateManager::active = this, performed unconditionally at the end
of the constructor body): given the previous value of the global pointer and
an identifier for the new instance, return the fresh manager, the new value of
the global pointer and the native calls made during construction (none: the
constructor only fills in-memory mirrors). -/
def constructStateManager (_activeBefore : Option Nat) (ident : Nat)
    (cs : GLCommonState) (exts : GLExtensions) (program0 : Nat) :
    GLStateManager × Option Nat × List GLCall :=
  (GLStateManager.init cs exts program0, some ident, [])

/-- Run a sequence of capability mutations (Set calls), collecting all native
calls in order.  Used to express push/mutate/pop round trips. -/
def GLStateManager.runCapMutations (s : GLStateManager) :
    List (Nat × Bool) → GLResult
  | [] => (s, [])
  | (c, v) :: rest =>
      let r := s.Set c v
      let r2 := r.1.runCapMutations rest
      (r2.1, r.2 ++ r2.2)

/-- Run a sequence of buffer-binding mutations (BindBuffer calls). -/
def GLStateManager.runBufMutations (s : GLStateManager) :
    List (GLBufferTarget × Nat) → GLResult
  | [] => (s, [])
  | (t, b) :: rest =>
      let r := s.BindBuffer t b
      let r2 := r.1.runBufMutations rest
      (r2.1, r.2 ++ r2.2)

/-- Bind a list of buffer handles to one target, consecutively. -/
def GLStateManager.bindBufferSeq (s : GLStateManager) (target : GLBufferTarget) :
    List Nat → GLResult
  | [] => (s, [])
  | b :: rest =>
      let r := s.BindBuffer target b
      let r2 := r.1.bindBufferSeq target rest
      (r2.1, r.2 ++ r2.2)

/-- Bind a list of texture handles to one target, consecutively. -/
def GLStateManager.bindTextureSeq (s : GLStateManager) (target : GLTextureTarget) :
    List Nat → GLResult
  | [] => (s, [])
  | b :: rest =>
      let r := s.BindTexture target b
      let r2 := r.1.bindTextureSeq target rest
      (r2.1, r.2 ++ r2.2)

/-- Bind a list of shader-program handles, consecutively. -/
def GLStateManager.bindProgramSeq (s : GLStateManager) :
    List Nat → GLResult
  | [] => (s, [])
  | p :: rest =>
      let r := s.BindShaderProgram p
      let r2 := r.1.bindProgramSeq rest
      (r2.1, r.2 ++ r2.2)

/-- Number of positions in a handle sequence that differ from their
predecessor, the first being compared against a given start value.  This is
exactly the number of native calls a redundancy-checked bind issues. -/
def countChanges (prev : Nat) : List Nat → Nat
  | [] => 0
  | h :: rest => (if prev = h then 0 else 1) + countChanges h rest

/-- Whether a native call is a glBindTexture call. -/
def GLCall.isBindTexture : GLCall → Bool
  | GLCall.glBindTexture _ _ => true
  | _ => false

/-- Concrete stencil value used by concrete evaluations below. -/
def stencilZero : GLStencil :=
  { sfail := 0, dpfail := 0, dppass := 0, func := 0, ref := 0, mask := 0, writeMask := 0 }

/-- A concrete common state used by concrete evaluations below (the specific
values are irrelevant to the statements that use it). -/
def commonStateZero : GLCommonState :=
  { depthFunc := 0, stencilFront := stencilZero, stencilBack := stencilZero
    polygonMode := 0, cullFace := 0, frontFace := 0, depthMask := true
    colorMask := { r := true, g := true, b := true, a := true } }

/-- A concrete freshly constructed state manager used by concrete evaluations. -/
def freshManager : GLStateManager :=
  GLStateManager.init commonStateZero
    { hasBlendFuncSeparatei := true, hasColorMaski := true } 0

/-- Modelled from the spec: the operations of the abstract CommandBuffer
contract that the claims exercise.  The implementation file of the validation
decorator (DbgCommandBuffer.cpp) is not among the sources at hand, only its
class declaration DbgCommandBuffer.h, so the decorator's behavior is modelled
from sections 4.2, 7 and 8 of the spec. -/
inductive DbgOperation where
  | setVertexBuffer (buffer : Nat)
  | setIndexBuffer (buffer : Nat)
  | setGraphicsPipeline (pipeline : Nat)
  | draw (numVertices firstVertex : Nat)
  | drawIndexed (numVertices firstIndex : Nat)
  | dispatch (x y z : Nat)
deriving DecidableEq, Repr

/-- Modelled from the spec: the violation categories reported through the
debugger sink that the claims exercise. -/
inductive DbgViolation where
  | noGraphicsPipeline
  | noVertexBuffer
  | noIndexBuffer
deriving DecidableEq, BEq, Repr

/-- Modelled from the spec: the decorator's lightweight pipeline-binding
snapshot (section 3): presence of a bound vertex buffer, of a bound index
buffer and of a bound graphics pipeline. -/
structure DbgCommandBufferState where
  vertexBufferBound     : Bool
  indexBufferBound      : Bool
  graphicsPipelineBound : Bool
deriving DecidableEq, Repr

/-- Modelled from the spec: one step of the validation decorator
(DbgCommandBuffer, whose implementation file is not among the sources at
hand).  Per sections 4.2 and 7, every operation first reports advisory
violations through the debugger sink — a Draw call while no pipeline is bound,
a Draw call without a vertex buffer, a DrawIndexed call without an index
buffer — and then forwards the original call to the wrapped instance
unconditionally.  The result is the updated snapshot, the reported violations
and the operations forwarded to the wrapped implementation. -/
def dbgStep (s : DbgCommandBufferState) (op : DbgOperation) :
    DbgCommandBufferState × List DbgViolation × List DbgOperation :=
  match op with
  | DbgOperation.setVertexBuffer _ =>
      ({ s with vertexBufferBound := true }, [], [op])
  | DbgOperation.setIndexBuffer _ =>
      ({ s with indexBufferBound := true }, [], [op])
  | DbgOperation.setGraphicsPipeline _ =>
      ({ s with graphicsPipelineBound := true }, [], [op])
  | DbgOperation.draw _ _ =>
      (s, (if s.graphicsPipelineBound then [] else [DbgViolation.noGraphicsPipeline]) ++
          (if s.vertexBufferBound then [] else [DbgViolation.noVertexBuffer]),
        [op])
  | DbgOperation.drawIndexed _ _ =>
      (s, (if s.graphicsPipelineBound then [] else [DbgViolation.noGraphicsPipeline]) ++
          (if s.vertexBufferBound then [] else [DbgViolation.noVertexBuffer]) ++
          (if s.indexBufferBound then [] else [DbgViolation.noIndexBuffer]),
        [op])
  | DbgOperation.dispatch _ _ _ =>
      (s, [], [op])

/-- The seven texture types mapped by GetTextureTarget, in source order. -/
def mappedTextureTypes : List TextureType :=
  [TextureType.Texture1D, TextureType.Texture2D, TextureType.Texture3D,
   TextureType.TextureCube, TextureType.Texture1DArray, TextureType.Texture2DArray,
   TextureType.TextureCubeArray]

/-- Whether GetTextureTarget succeeds on a texture type. -/
def textureTargetMapped (t : TextureType) : Bool :=
  match GetTextureTarget t with
  | Except.ok _ => true
  | Except.error _ => false

/-! Theorems about the embedded operations, one per claim. -/

/-- C2: for every capability index c and boolean b, Set(c, b) is idempotent:
the second of two consecutive Set(c, b) calls issues no native call, the two
calls together issue the underlying enable/disable transition exactly once
when the mirrored value differed from b and not at all when it already equaled
b; Enable(c) and Disable(c) are the same operations as Set(c, true) and
Set(c, false). -/
theorem set_idempotent_and_enable_disable_alias :
    ∀ (s : GLStateManager) (c : Nat) (b : Bool),
      ((s.Set c b).1.Set c b).2 = [] ∧
      ((s.Set c b).2 ++ ((s.Set c b).1.Set c b).2).length =
        (if s.renderStateValues c = b then 0 else 1) ∧
      s.Enable c = s.Set c true ∧
      s.Disable c = s.Set c false := by
  intro s c b
  cases hb : s.renderStateValues c <;> cases b <;>
    simp [GLStateManager.Set, GLStateManager.Enable, GLStateManager.Disable, hb]

/-- C1 (counterexample): not every mutation of the state cache is filtered
through a changed-value check against the mirror.  On a fresh manager whose
mirrored color mask already equals the requested blend state's color mask
(the color mask being the only mirrored component of the blend state),
SetBlendStates with a single-element list and blending enabled still issues
the native glBlendFuncSeparate call. -/
theorem setBlendStates_issues_call_despite_unchanged_mirror :
    (freshManager.SetBlendStates
        [{ colorMask := { r := true, g := true, b := true, a := true },
           srcColor := 1, destColor := 2, srcAlpha := 3, destAlpha := 4 }] true).2 =
      [GLCall.glBlendFuncSeparate 1 2 3 4] ∧
    freshManager.commonState.colorMask =
      { r := true, g := true, b := true, a := true } := by
  constructor <;> rfl

/-- C5: BindBufferBase and BindVertexArray are unconditional: for every state —
in particular also when the mirrored value already equals the requested one —
they issue their native call; BindBufferBase overwrites the mirrored slot of
its target with the handle, and BindVertexArray (the operation whose native
side effect implicitly unbinds the plain array and element-array bindings)
zeroes the mirrored ARRAY_BUFFER and ELEMENT_ARRAY_BUFFER slots. -/
theorem bindBufferBase_bindVertexArray_unconditional :
    (∀ (s : GLStateManager) (t : GLBufferTarget) (i h : Nat),
      (s.BindBufferBase t i h).2 = [GLCall.glBindBufferBase t i h] ∧
      (s.BindBufferBase t i h).1.boundBuffers t = h) ∧
    (∀ (s : GLStateManager) (h : Nat),
      (s.BindVertexArray h).2 = [GLCall.glBindVertexArray h] ∧
      (s.BindVertexArray h).1.boundBuffers GLBufferTarget.ARRAY_BUFFER = 0 ∧
      (s.BindVertexArray h).1.boundBuffers GLBufferTarget.ELEMENT_ARRAY_BUFFER = 0) := by
  refine ⟨?_, ?_⟩
  · intro s t i h
    exact ⟨rfl, by simp [GLStateManager.BindBufferBase]⟩
  · intro s h
    exact ⟨rfl, by simp [GLStateManager.BindVertexArray],
      by simp [GLStateManager.BindVertexArray]⟩

/-- C10: constructing a GLStateManager initializes every capability mirror to
false, every buffer slot to 0, every texture slot on every layer to 0 and
makes layer 0 the active texture layer; construction issues no native call (no
driver query), and it sets the class-static active-instance pointer to the new
instance unconditionally, whatever it pointed to before — so constructing a
second manager silently redirects the global pointer. -/
theorem construct_initializes_mirrors_and_redirects_active :
    ∀ (activeBefore : Option Nat) (ident : Nat) (cs : GLCommonState)
      (exts : GLExtensions) (program0 : Nat),
      (∀ c, (constructStateManager activeBefore ident cs exts program0).1.renderStateValues c = false) ∧
      (∀ t, (constructStateManager activeBefore ident cs exts program0).1.boundBuffers t = 0) ∧
      (∀ l t, (constructStateManager activeBefore ident cs exts program0).1.textureLayers l t = 0) ∧
      (constructStateManager activeBefore ident cs exts program0).1.activeTexture = 0 ∧
      (constructStateManager activeBefore ident cs exts program0).2.1 = some ident ∧
      (constructStateManager activeBefore ident cs exts program0).2.2 = [] := by
  intro activeBefore ident cs exts program0
  exact ⟨fun _ => rfl, fun _ => rfl, fun _ _ => rfl, rfl, rfl, rfl⟩

/-- Set never touches the capability save stack. -/
lemma set_preserves_valueStack (s : GLStateManager) (c : Nat) (v : Bool) :
    (s.Set c v).1.valueStack = s.valueStack := by
  by_cases h : s.renderStateValues c ≠ v <;> simp [GLStateManager.Set, h]

/-- After Set, the mirrored value of the capability equals the requested one. -/
lemma set_result_value (s : GLStateManager) (c : Nat) (v : Bool) :
    (s.Set c v).1.renderStateValues c = v := by
  by_cases h : s.renderStateValues c ≠ v
  · simp [GLStateManager.Set, h]
  · simp only [GLStateManager.Set, if_neg h]
    exact not_not.mp h

/-- The calls issued by Set, as a closed form. -/
lemma set_calls (s : GLStateManager) (c : Nat) (v : Bool) :
    (s.Set c v).2 = if s.renderStateValues c = v then [] else
      [if v then GLCall.glEnable c else GLCall.glDisable c] := by
  by_cases h : s.renderStateValues c = v <;> simp [GLStateManager.Set, h]

/-- A sequence of Set mutations never touches the capability save stack. -/
lemma runCapMutations_valueStack (ops : List (Nat × Bool)) :
    ∀ s : GLStateManager, (s.runCapMutations ops).1.valueStack = s.valueStack := by
  induction ops with
  | nil => intro s; rfl
  | cons p rest ih =>
      intro s
      obtain ⟨c, v⟩ := p
      simp only [GLStateManager.runCapMutations]
      rw [ih, set_preserves_valueStack]

/-- BindBuffer never touches the buffer save stack. -/
lemma bindBuffer_preserves_stack (s : GLStateManager) (t : GLBufferTarget) (b : Nat) :
    (s.BindBuffer t b).1.boundBufferStack = s.boundBufferStack := by
  by_cases h : s.boundBuffers t ≠ b <;> simp [GLStateManager.BindBuffer, h]

/-- After BindBuffer, the mirrored binding of the target equals the handle. -/
lemma bindBuffer_result_value (s : GLStateManager) (t : GLBufferTarget) (b : Nat) :
    (s.BindBuffer t b).1.boundBuffers t = b := by
  by_cases h : s.boundBuffers t ≠ b
  · simp [GLStateManager.BindBuffer, h]
  · simp only [GLStateManager.BindBuffer, if_neg h]
    exact not_not.mp h

/-- The calls issued by BindBuffer, as a closed form. -/
lemma bindBuffer_calls (s : GLStateManager) (t : GLBufferTarget) (b : Nat) :
    (s.BindBuffer t b).2 = if s.boundBuffers t = b then [] else
      [GLCall.glBindBuffer t b] := by
  by_cases h : s.boundBuffers t = b <;> simp [GLStateManager.BindBuffer, h]

/-- A sequence of BindBuffer mutations never touches the buffer save stack. -/
lemma runBufMutations_stack (ops : List (GLBufferTarget × Nat)) :
    ∀ s : GLStateManager, (s.runBufMutations ops).1.boundBufferStack = s.boundBufferStack := by
  induction ops with
  | nil => intro s; rfl
  | cons p rest ih =>
      intro s
      obtain ⟨t, b⟩ := p
      simp only [GLStateManager.runBufMutations]
      rw [ih, bindBuffer_preserves_stack]

/-- C3: for every capability and every buffer target, a Push followed by any
sequence of mutations and the matching LIFO Pop restores the mirrored value
that existed immediately before the Push and restores the save stack; the Push
itself issues no native call, a push/pop pair with no intermediate mutation
issues zero native calls, and the Pop issues the native re-application exactly
when the value mirrored at Pop time differs from the restored one. -/
theorem push_mutate_pop_restores :
    (∀ (s : GLStateManager) (c : Nat) (ops : List (Nat × Bool)),
      ((((s.PushState c).1.runCapMutations ops).1.PopState).1.renderStateValues c
          = s.renderStateValues c) ∧
      ((((s.PushState c).1.runCapMutations ops).1.PopState).1.valueStack = s.valueStack) ∧
      ((s.PushState c).2 = []) ∧
      (((s.PushState c).1.PopState).2 = []) ∧
      ((((s.PushState c).1.runCapMutations ops).1.PopState).2 =
        if ((s.PushState c).1.runCapMutations ops).1.renderStateValues c
            = s.renderStateValues c
        then []
        else [if s.renderStateValues c then GLCall.glEnable c
              else GLCall.glDisable c])) ∧
    (∀ (s : GLStateManager) (t : GLBufferTarget) (ops : List (GLBufferTarget × Nat)),
      ((((s.PushBoundBuffer t).1.runBufMutations ops).1.PopBoundBuffer).1.boundBuffers t
          = s.boundBuffers t) ∧
      ((((s.PushBoundBuffer t).1.runBufMutations ops).1.PopBoundBuffer).1.boundBufferStack
          = s.boundBufferStack) ∧
      ((s.PushBoundBuffer t).2 = []) ∧
      (((s.PushBoundBuffer t).1.PopBoundBuffer).2 = []) ∧
      ((((s.PushBoundBuffer t).1.runBufMutations ops).1.PopBoundBuffer).2 =
        if ((s.PushBoundBuffer t).1.runBufMutations ops).1.boundBuffers t
            = s.boundBuffers t
        then []
        else [GLCall.glBindBuffer t (s.boundBuffers t)])) := by
  constructor
  · intro s c ops
    have hstack : ((s.PushState c).1.runCapMutations ops).1.valueStack
        = (c, s.renderStateValues c) :: s.valueStack := by
      rw [runCapMutations_valueStack]; rfl
    refine ⟨?_, ?_, rfl, ?_, ?_⟩
    · simp only [GLStateManager.PopState, hstack]
      exact set_result_value _ _ _
    · simp only [GLStateManager.PopState, hstack]
    · simp only [GLStateManager.PopState, GLStateManager.PushState]
      rw [set_calls]
      simp
    · simp only [GLStateManager.PopState, hstack]
      exact set_calls _ _ _
  · intro s t ops
    have hstack : ((s.PushBoundBuffer t).1.runBufMutations ops).1.boundBufferStack
        = (t, s.boundBuffers t) :: s.boundBufferStack := by
      rw [runBufMutations_stack]; rfl
    refine ⟨?_, ?_, rfl, ?_, ?_⟩
    · simp only [GLStateManager.PopBoundBuffer, hstack]
      exact bindBuffer_result_value _ _ _
    · simp only [GLStateManager.PopBoundBuffer, hstack]
    · simp only [GLStateManager.PopBoundBuffer, GLStateManager.PushBoundBuffer]
      rw [bindBuffer_calls]
      simp
    · simp only [GLStateManager.PopBoundBuffer, hstack]
      exact bindBuffer_calls _ _ _

/-- BindTexture never changes which texture layer is active. -/
lemma bindTexture_preserves_active (s : GLStateManager) (t : GLTextureTarget) (b : Nat) :
    (s.BindTexture t b).1.activeTexture = s.activeTexture := by
  by_cases h : s.textureLayers s.activeTexture t ≠ b <;>
    simp [GLStateManager.BindTexture, h]

/-- After BindTexture, the active layer's mirrored slot equals the handle. -/
lemma bindTexture_result_value (s : GLStateManager) (t : GLTextureTarget) (b : Nat) :
    (s.BindTexture t b).1.textureLayers s.activeTexture t = b := by
  by_cases h : s.textureLayers s.activeTexture t ≠ b
  · simp [GLStateManager.BindTexture, h]
  · simp only [GLStateManager.BindTexture, if_neg h]
    exact not_not.mp h

/-- The calls issued by BindTexture, as a closed form. -/
lemma bindTexture_calls (s : GLStateManager) (t : GLTextureTarget) (b : Nat) :
    (s.BindTexture t b).2 = if s.textureLayers s.activeTexture t = b then [] else
      [GLCall.glBindTexture t b] := by
  by_cases h : s.textureLayers s.activeTexture t = b <;>
    simp [GLStateManager.BindTexture, h]

/-- After BindShaderProgram, the mirrored program equals the handle. -/
lemma bindProgram_result_value (s : GLStateManager) (p : Nat) :
    (s.BindShaderProgram p).1.boundProgram = p := by
  by_cases h : s.boundProgram ≠ p
  · simp [GLStateManager.BindShaderProgram, h]
  · simp only [GLStateManager.BindShaderProgram, if_neg h]
    exact not_not.mp h

/-- The calls issued by BindShaderProgram, as a closed form. -/
lemma bindProgram_calls (s : GLStateManager) (p : Nat) :
    (s.BindShaderProgram p).2 = if s.boundProgram = p then [] else
      [GLCall.glUseProgram p] := by
  by_cases h : s.boundProgram = p <;> simp [GLStateManager.BindShaderProgram, h]

/-- The number of calls of a consecutive buffer-bind sequence is the number of
positions whose handle differs from the previously mirrored one. -/
lemma bindBufferSeq_length (hs : List Nat) :
    ∀ (s : GLStateManager) (t : GLBufferTarget),
      (s.bindBufferSeq t hs).2.length = countChanges (s.boundBuffers t) hs := by
  induction hs with
  | nil => intro s t; rfl
  | cons h rest ih =>
      intro s t
      simp only [GLStateManager.bindBufferSeq, countChanges, List.length_append]
      rw [ih, bindBuffer_result_value, bindBuffer_calls]
      by_cases hh : s.boundBuffers t = h <;> simp [hh]

/-- The number of calls of a consecutive texture-bind sequence is the number
of positions whose handle differs from the previously mirrored one. -/
lemma bindTextureSeq_length (hs : List Nat) :
    ∀ (s : GLStateManager) (t : GLTextureTarget),
      (s.bindTextureSeq t hs).2.length =
        countChanges (s.textureLayers s.activeTexture t) hs := by
  induction hs with
  | nil => intro s t; rfl
  | cons h rest ih =>
      intro s t
      simp only [GLStateManager.bindTextureSeq, countChanges, List.length_append]
      rw [ih, bindTexture_preserves_active, bindTexture_result_value, bindTexture_calls]
      by_cases hh : s.textureLayers s.activeTexture t = h <;> simp [hh]

/-- The number of calls of a consecutive program-bind sequence is the number
of positions whose handle differs from the previously mirrored one. -/
lemma bindProgramSeq_length (hs : List Nat) :
    ∀ s : GLStateManager,
      (s.bindProgramSeq hs).2.length = countChanges s.boundProgram hs := by
  induction hs with
  | nil => intro s; rfl
  | cons h rest ih =>
      intro s
      simp only [GLStateManager.bindProgramSeq, countChanges, List.length_append]
      rw [ih, bindProgram_result_value, bindProgram_calls]
      by_cases hh : s.boundProgram = h <;> simp [hh]

/-- Repeating the value already counted as previous adds no changes. -/
lemma countChanges_replicate_self (h : Nat) :
    ∀ n : Nat, countChanges h (List.replicate n h) = 0 := by
  intro n
  induction n with
  | zero => rfl
  | succ m ih => simp [List.replicate, countChanges, ih]

/-- A nonempty constant sequence counts one change exactly when the previous
value differs. -/
lemma countChanges_replicate (p h n : Nat) :
    countChanges p (List.replicate (n + 1) h) = if p = h then 0 else 1 := by
  simp [List.replicate, countChanges, countChanges_replicate_self]

/-- A sequence of pairwise-distinct values, the first differing from the
previous value, counts one change per element. -/
lemma countChanges_pairwise (rest : List Nat) :
    ∀ p h : Nat, p ≠ h → List.Pairwise (fun a b => a ≠ b) (h :: rest) →
      countChanges p (h :: rest) = (h :: rest).length := by
  induction rest with
  | nil =>
      intro p h hne _
      simp [countChanges, hne]
  | cons h2 rest2 ih =>
      intro p h hne hpw
      have hh2 : h ≠ h2 := (List.pairwise_cons.mp hpw).1 h2 (by simp)
      have htail : List.Pairwise (fun a b => a ≠ b) (h2 :: rest2) :=
        (List.pairwise_cons.mp hpw).2
      have hrec := ih h h2 hh2 htail
      have step : countChanges p (h :: h2 :: rest2)
          = (if p = h then 0 else 1) + countChanges h (h2 :: rest2) := rfl
      rw [step, if_neg hne, hrec]
      simp only [List.length_cons]
      omega

/-- C4 (counterexample): binding the same (target, handle) pair N consecutive
times does not always issue the native bind call exactly once, and binding N
pairwise-different handles does not always issue it N times: once handle 5 is
mirrored for ARRAY_BUFFER, binding (ARRAY_BUFFER, 5) twice issues zero native
calls; and on a fresh manager (which mirrors handle 0 for every target)
binding the two pairwise-different handles 0 and 1 issues one call, not two. -/
theorem bind_same_pair_counterexample :
    (((freshManager.BindBuffer GLBufferTarget.ARRAY_BUFFER 5).1.bindBufferSeq
        GLBufferTarget.ARRAY_BUFFER [5, 5]).2.length = 0) ∧
    ((freshManager.bindBufferSeq GLBufferTarget.ARRAY_BUFFER [0, 1]).2.length = 1) := by
  constructor <;> rfl

/-- C4 (amended): binding the same (target, handle) pair N consecutive times
(N at least one) issues the native bind call exactly once when the handle
differs from the currently mirrored binding and zero times when it already
equals it; binding N consecutively pairwise-different handles whose first
differs from the mirrored binding issues the call exactly N times.  This holds
for BindBuffer per buffer target, for BindTexture per texture target on the
active layer, and for BindShaderProgram. -/
theorem bind_redundancy_counts_amended :
    (∀ (s : GLStateManager) (t : GLBufferTarget) (h n : Nat),
      (s.bindBufferSeq t (List.replicate (n + 1) h)).2.length =
        if s.boundBuffers t = h then 0 else 1) ∧
    (∀ (s : GLStateManager) (t : GLBufferTarget) (h : Nat) (rest : List Nat),
      List.Pairwise (fun a b => a ≠ b) (h :: rest) → s.boundBuffers t ≠ h →
      (s.bindBufferSeq t (h :: rest)).2.length = (h :: rest).length) ∧
    (∀ (s : GLStateManager) (t : GLTextureTarget) (h n : Nat),
      (s.bindTextureSeq t (List.replicate (n + 1) h)).2.length =
        if s.textureLayers s.activeTexture t = h then 0 else 1) ∧
    (∀ (s : GLStateManager) (t : GLTextureTarget) (h : Nat) (rest : List Nat),
      List.Pairwise (fun a b => a ≠ b) (h :: rest) →
      s.textureLayers s.activeTexture t ≠ h →
      (s.bindTextureSeq t (h :: rest)).2.length = (h :: rest).length) ∧
    (∀ (s : GLStateManager) (h n : Nat),
      (s.bindProgramSeq (List.replicate (n + 1) h)).2.length =
        if s.boundProgram = h then 0 else 1) ∧
    (∀ (s : GLStateManager) (h : Nat) (rest : List Nat),
      List.Pairwise (fun a b => a ≠ b) (h :: rest) → s.boundProgram ≠ h →
      (s.bindProgramSeq (h :: rest)).2.length = (h :: rest).length) := by
  refine ⟨?_, ?_, ?_, ?_, ?_, ?_⟩
  · intro s t h n
    rw [bindBufferSeq_length, countChanges_replicate]
  · intro s t h rest hpw hne
    rw [bindBufferSeq_length, countChanges_pairwise rest _ _ hne hpw]
  · intro s t h n
    rw [bindTextureSeq_length, countChanges_replicate]
  · intro s t h rest hpw hne
    rw [bindTextureSeq_length, countChanges_pairwise rest _ _ hne hpw]
  · intro s h n
    rw [bindProgramSeq_length, countChanges_replicate]
  · intro s h rest hpw hne
    rw [bindProgramSeq_length, countChanges_pairwise rest _ _ hne hpw]

/-- C4 (witness): the amended counting statements evaluated on a fresh manager
with concrete handles. -/
theorem bind_redundancy_counts_amended_witness :
    ((freshManager.bindBufferSeq GLBufferTarget.ARRAY_BUFFER
        (List.replicate (2 + 1) 7)).2.length = 1) ∧
    ((freshManager.bindBufferSeq GLBufferTarget.ARRAY_BUFFER [7, 8, 9]).2.length = 3) ∧
    ((freshManager.bindTextureSeq GLTextureTarget.TEXTURE_2D
        (List.replicate (1 + 1) 4)).2.length = 1) ∧
    ((freshManager.bindTextureSeq GLTextureTarget.TEXTURE_2D [4, 6]).2.length = 2) ∧
    ((freshManager.bindProgramSeq (List.replicate (0 + 1) 9)).2.length = 1) ∧
    ((freshManager.bindProgramSeq [9, 10, 11]).2.length = 3) :=
  ⟨(bind_redundancy_counts_amended.1 freshManager GLBufferTarget.ARRAY_BUFFER 7 2).trans
      (by decide),
   (bind_redundancy_counts_amended.2.1 freshManager GLBufferTarget.ARRAY_BUFFER 7 [8, 9]
      (by decide) (by decide)).trans (by decide),
   (bind_redundancy_counts_amended.2.2.1 freshManager GLTextureTarget.TEXTURE_2D 4 1).trans
      (by decide),
   (bind_redundancy_counts_amended.2.2.2.1 freshManager GLTextureTarget.TEXTURE_2D 4 [6]
      (by decide) (by decide)).trans (by decide),
   (bind_redundancy_counts_amended.2.2.2.2.1 freshManager 9 0).trans (by decide),
   (bind_redundancy_counts_amended.2.2.2.2.2 freshManager 9 [10, 11]
      (by decide) (by decide)).trans (by decide)⟩

/-- After ActiveTexture, the requested layer is active. -/
lemma activeTexture_result (s : GLStateManager) (l : Nat) :
    (s.ActiveTexture l).1.activeTexture = l := by
  by_cases h : s.activeTexture ≠ l
  · simp [GLStateManager.ActiveTexture, h]
  · simp only [GLStateManager.ActiveTexture, if_neg h]
    exact not_not.mp h

/-- ActiveTexture never changes any mirrored texture binding. -/
lemma activeTexture_layers (s : GLStateManager) (l : Nat) :
    (s.ActiveTexture l).1.textureLayers = s.textureLayers := by
  by_cases h : s.activeTexture ≠ l <;> simp [GLStateManager.ActiveTexture, h]

/-- BindTexture leaves every layer other than the active one untouched. -/
lemma bindTexture_layer_other (s : GLStateManager) (t : GLTextureTarget) (b : Nat)
    (l : Nat) (t2 : GLTextureTarget) (hl : l ≠ s.activeTexture) :
    (s.BindTexture t b).1.textureLayers l t2 = s.textureLayers l t2 := by
  by_cases h : s.textureLayers s.activeTexture t ≠ b <;>
    simp [GLStateManager.BindTexture, h, hl]

/-- C6: texture bindings are isolated per layer and the texture save stack
addresses an explicit (layer, target) pair.  On a fresh manager, the sequence
ActiveTexture(2); BindTexture(TEXTURE_2D, 7); PushBoundTexture(2, TEXTURE_2D);
BindTexture(TEXTURE_2D, 9); PopBoundTexture() leaves handle 7 mirrored for
(layer 2, TEXTURE_2D) and issues exactly three native glBindTexture calls; and
in general a handle bound to a target on layer L stays mirrored for L after
any binding of a different handle to the same target on a different layer and
a switch back to L. -/
theorem texture_layer_scenario_and_isolation :
    ((let r1 := freshManager.ActiveTexture 2
      let r2 := r1.1.BindTexture GLTextureTarget.TEXTURE_2D 7
      let r3 := r2.1.PushBoundTexture 2 GLTextureTarget.TEXTURE_2D
      let r4 := r3.1.BindTexture GLTextureTarget.TEXTURE_2D 9
      let r5 := r4.1.PopBoundTexture
      r5.1.textureLayers 2 GLTextureTarget.TEXTURE_2D = 7 ∧
      (r1.2 ++ r2.2 ++ r3.2 ++ r4.2 ++ r5.2).countP (fun c => c.isBindTexture) = 3)) ∧
    (∀ (s : GLStateManager) (L L' : Nat) (T : GLTextureTarget) (H H' : Nat),
      L ≠ L' → H' ≠ H →
      (((((s.ActiveTexture L).1.BindTexture T H).1.ActiveTexture L').1.BindTexture
          T H').1.ActiveTexture L).1.textureLayers L T = H) := by
  constructor
  · exact ⟨rfl, rfl⟩
  · intro s L L' T H H' hLL _
    rw [activeTexture_layers]
    rw [bindTexture_layer_other _ T H' L T
        (by rw [activeTexture_result]; exact hLL)]
    rw [activeTexture_layers]
    have hv := bindTexture_result_value (s.ActiveTexture L).1 T H
    rwa [activeTexture_result] at hv

/-- C6 (witness): the isolation statement evaluated at layers 1 and 3 with
handles 5 and 6 on a fresh manager, together with the concrete scenario. -/
theorem texture_layer_scenario_and_isolation_witness :
    (((((freshManager.ActiveTexture 1).1.BindTexture GLTextureTarget.TEXTURE_3D 5).1.ActiveTexture
        3).1.BindTexture GLTextureTarget.TEXTURE_3D 6).1.ActiveTexture
        1).1.textureLayers 1 GLTextureTarget.TEXTURE_3D = 5 :=
  texture_layer_scenario_and_isolation.2 freshManager 1 3 GLTextureTarget.TEXTURE_3D 5 6
    (by decide) (by decide)

/-- The calls issued by one face application of the stencil state, as a
closed form: one call per sub-field group that differs from the mirror. -/
lemma setStencilFace_calls (face : Nat) (dst src : GLStencil) :
    (setStencilFace face dst src).2 =
      (if dst.sfail ≠ src.sfail ∨ dst.dpfail ≠ src.dpfail ∨ dst.dppass ≠ src.dppass
       then [GLCall.glStencilOpSeparate face src.sfail src.dpfail src.dppass]
       else []) ++
      (if dst.func ≠ src.func ∨ dst.ref ≠ src.ref ∨ dst.mask ≠ src.mask
       then [GLCall.glStencilFuncSeparate face src.func src.ref src.mask]
       else []) ++
      (if dst.writeMask ≠ src.writeMask
       then [GLCall.glStencilMaskSeparate face src.writeMask]
       else []) := by
  by_cases h1 : dst.sfail ≠ src.sfail ∨ dst.dpfail ≠ src.dpfail ∨ dst.dppass ≠ src.dppass <;>
  by_cases h2 : dst.func ≠ src.func ∨ dst.ref ≠ src.ref ∨ dst.mask ≠ src.mask <;>
  by_cases h3 : dst.writeMask ≠ src.writeMask <;>
    simp [setStencilFace, h1, h2, h3]

/-- C7: SetStencilState redundancy-checks the three stencil sub-fields
independently: one face application issues the op-triplet call, the
func/ref/mask call and the write-mask call each exactly when the respective
sub-field group differs from the mirror; consequently changing only the
write-mask of the front or back face issues only the write-mask native call;
and a FRONT_AND_BACK face application equals applying the front face and then
the back face, each compared against its own mirrored sub-state. -/
theorem stencil_subfields_independent :
    (∀ (face : Nat) (dst src : GLStencil),
      (setStencilFace face dst src).2 =
        (if dst.sfail ≠ src.sfail ∨ dst.dpfail ≠ src.dpfail ∨ dst.dppass ≠ src.dppass
         then [GLCall.glStencilOpSeparate face src.sfail src.dpfail src.dppass]
         else []) ++
        (if dst.func ≠ src.func ∨ dst.ref ≠ src.ref ∨ dst.mask ≠ src.mask
         then [GLCall.glStencilFuncSeparate face src.func src.ref src.mask]
         else []) ++
        (if dst.writeMask ≠ src.writeMask
         then [GLCall.glStencilMaskSeparate face src.writeMask]
         else [])) ∧
    (∀ (s : GLStateManager) (w : Nat),
      w ≠ s.commonState.stencilFront.writeMask →
      (s.SetStencilState GL_FRONT
          { s.commonState.stencilFront with writeMask := w }).2 =
        [GLCall.glStencilMaskSeparate GL_FRONT w]) ∧
    (∀ (s : GLStateManager) (w : Nat),
      w ≠ s.commonState.stencilBack.writeMask →
      (s.SetStencilState GL_BACK
          { s.commonState.stencilBack with writeMask := w }).2 =
        [GLCall.glStencilMaskSeparate GL_BACK w]) ∧
    (∀ (s : GLStateManager) (st : GLStencil),
      s.SetStencilState GL_FRONT_AND_BACK st =
        (((s.SetStencilState GL_FRONT st).1.SetStencilState GL_BACK st).1,
          (s.SetStencilState GL_FRONT st).2 ++
            ((s.SetStencilState GL_FRONT st).1.SetStencilState GL_BACK st).2)) := by
  refine ⟨setStencilFace_calls, ?_, ?_, ?_⟩
  · intro s w hw
    simp [GLStateManager.SetStencilState, setStencilFace_calls, Ne.symm hw]
  · intro s w hw
    simp [GLStateManager.SetStencilState, GL_FRONT, GL_BACK, setStencilFace_calls,
      Ne.symm hw]
  · intro s st
    rfl

/-- C7 (witness): changing only the write mask on a fresh manager issues only
the write-mask call, for the front face and for the back face. -/
theorem stencil_subfields_independent_witness :
    ((freshManager.SetStencilState GL_FRONT
        { freshManager.commonState.stencilFront with writeMask := 255 }).2 =
      [GLCall.glStencilMaskSeparate GL_FRONT 255]) ∧
    ((freshManager.SetStencilState GL_BACK
        { freshManager.commonState.stencilBack with writeMask := 255 }).2 =
      [GLCall.glStencilMaskSeparate GL_BACK 255]) :=
  ⟨stencil_subfields_independent.2.1 freshManager 255 (by decide),
   stencil_subfields_independent.2.2.1 freshManager 255 (by decide)⟩

/-- C9: binding a texture object converts its texture type first and the
conversion succeeds exactly on the seven mapped types; for every texture whose
type is unmapped (in particular the multisample types), BindTexture and
ForcedBindTexture on the object propagate the invalid-argument failure with
the source's message, producing no successor state, hence no mirror update
and no native call; on the seven mapped types the conversion never fails. -/
theorem unmapped_texture_type_throws :
    (mappedTextureTypes.length = 7) ∧
    (∀ t : TextureType, textureTargetMapped t = true ↔ t ∈ mappedTextureTypes) ∧
    (∀ (s : GLStateManager) (tex : GLTexture),
      textureTargetMapped tex.type = false →
      s.BindTextureObj tex =
        Except.error "failed to convert texture type to OpenGL texture target" ∧
      s.ForcedBindTextureObj tex =
        Except.error "failed to convert texture type to OpenGL texture target") ∧
    (∀ (s : GLStateManager) (tex : GLTexture),
      textureTargetMapped tex.type = true →
      ∀ e : String, s.BindTextureObj tex ≠ Except.error e ∧
        s.ForcedBindTextureObj tex ≠ Except.error e) := by
  refine ⟨rfl, ?_, ?_, ?_⟩
  · intro t
    cases t <;> simp [textureTargetMapped, GetTextureTarget, mappedTextureTypes]
  · intro s tex h
    obtain ⟨ty, idv⟩ := tex
    cases ty <;> simp_all [textureTargetMapped, GetTextureTarget,
      GLStateManager.BindTextureObj, GLStateManager.ForcedBindTextureObj]
  · intro s tex h e
    obtain ⟨ty, idv⟩ := tex
    cases ty <;> simp_all [textureTargetMapped, GetTextureTarget,
      GLStateManager.BindTextureObj, GLStateManager.ForcedBindTextureObj]

/-- C9 (witness): a multisample texture makes the object bind fail with the
invalid-argument message, and a 2D texture never produces the failure. -/
theorem unmapped_texture_type_throws_witness :
    (freshManager.BindTextureObj { type := TextureType.Texture2DMS, id := 3 } =
      Except.error "failed to convert texture type to OpenGL texture target") ∧
    (freshManager.BindTextureObj { type := TextureType.Texture2D, id := 3 } ≠
      Except.error "failed to convert texture type to OpenGL texture target") :=
  ⟨(unmapped_texture_type_throws.2.2.1 freshManager
      { type := TextureType.Texture2DMS, id := 3 } (by decide)).1,
   (unmapped_texture_type_throws.2.2.2 freshManager
      { type := TextureType.Texture2D, id := 3 } (by decide)
      "failed to convert texture type to OpenGL texture target").1⟩

/-- C8: the validation decorator is advisory-only: every modelled
command-buffer operation is forwarded to the wrapped implementation exactly
as issued, regardless of the validation outcome; a DrawIndexed issued while
no index buffer is bound reports exactly one violation citing the missing
index buffer and is still forwarded, and no missing-index-buffer violation is
reported when an index buffer is bound. -/
theorem decorator_always_forwards :
    (∀ (s : DbgCommandBufferState) (op : DbgOperation),
      (dbgStep s op).2.2 = [op]) ∧
    (∀ (s : DbgCommandBufferState) (n f : Nat),
      s.indexBufferBound = false →
      ((dbgStep s (DbgOperation.drawIndexed n f)).2.1.count
          DbgViolation.noIndexBuffer = 1) ∧
      ((dbgStep s (DbgOperation.drawIndexed n f)).2.2 =
        [DbgOperation.drawIndexed n f])) ∧
    (∀ (s : DbgCommandBufferState) (n f : Nat),
      s.indexBufferBound = true →
      (dbgStep s (DbgOperation.drawIndexed n f)).2.1.count
          DbgViolation.noIndexBuffer = 0) := by
  refine ⟨?_, ?_, ?_⟩
  · intro s op
    cases op <;> rfl
  · intro s n f h
    cases hgp : s.graphicsPipelineBound <;> cases hvb : s.vertexBufferBound <;>
      simp [dbgStep, h, hgp, hvb] <;> decide
  · intro s n f h
    cases hgp : s.graphicsPipelineBound <;> cases hvb : s.vertexBufferBound <;>
      simp [dbgStep, h, hgp, hvb] <;> decide

/-- C8 (witness): with a pipeline and vertex buffer bound but no index buffer,
DrawIndexed reports the missing index buffer exactly once and is forwarded;
with an index buffer bound no such violation is reported. -/
theorem decorator_always_forwards_witness :
    ((dbgStep
        { vertexBufferBound := true, indexBufferBound := false,
          graphicsPipelineBound := true }
        (DbgOperation.drawIndexed 12 0)).2.1.count DbgViolation.noIndexBuffer = 1) ∧
    ((dbgStep
        { vertexBufferBound := true, indexBufferBound := false,
          graphicsPipelineBound := true }
        (DbgOperation.drawIndexed 12 0)).2.2 = [DbgOperation.drawIndexed 12 0]) ∧
    ((dbgStep
        { vertexBufferBound := true, indexBufferBound := true,
          graphicsPipelineBound := true }
        (DbgOperation.drawIndexed 12 0)).2.1.count DbgViolation.noIndexBuffer = 0) :=
  ⟨(decorator_always_forwards.2.1
      { vertexBufferBound := true, indexBufferBound := false,
        graphicsPipelineBound := true } 12 0 rfl).1,
   (decorator_always_forwards.2.1
      { vertexBufferBound := true, indexBufferBound := false,
        graphicsPipelineBound := true } 12 0 rfl).2,
   decorator_always_forwards.2.2
      { vertexBufferBound := true, indexBufferBound := true,
        graphicsPipelineBound := true } 12 0 rfl⟩

/-- C1 (amended): every mutation operation that mirrors its requested value is
filtered through the changed-value check — capability Set, BindBuffer,
BindTexture, BindShaderProgram, SetDepthFunc, SetPolygonMode, SetCullFace,
SetFrontFace, SetDepthMask, the color-mask component of a single-element
SetBlendStates, ActiveTexture, SetStencilState on each face against its own
mirror, and the Pop re-applications (PopState, PopBoundBuffer, PopBoundTexture,
PopShaderProgram) issue no native call when the requested value equals the
currently mirrored one.  The only exceptions are the unmirrored component of
SetBlendStates — glBlendFuncSeparate is issued unconditionally whenever
blending is enabled — and ForcedBindBuffer, ForcedBindTexture, BindBufferBase
and BindVertexArray, which issue their native call unconditionally by design. -/
theorem mutation_redundancy_filter_amended :
    (∀ (s : GLStateManager) (c : Nat) (b : Bool),
      (s.Set c b).2 = if s.renderStateValues c = b then [] else
        [if b then GLCall.glEnable c else GLCall.glDisable c]) ∧
    (∀ (s : GLStateManager) (t : GLBufferTarget) (h : Nat),
      (s.BindBuffer t h).2 = if s.boundBuffers t = h then [] else
        [GLCall.glBindBuffer t h]) ∧
    (∀ (s : GLStateManager) (t : GLTextureTarget) (h : Nat),
      (s.BindTexture t h).2 = if s.textureLayers s.activeTexture t = h then [] else
        [GLCall.glBindTexture t h]) ∧
    (∀ (s : GLStateManager) (p : Nat),
      (s.BindShaderProgram p).2 = if s.boundProgram = p then [] else
        [GLCall.glUseProgram p]) ∧
    (∀ (s : GLStateManager) (f : Nat),
      (s.SetDepthFunc f).2 = if s.commonState.depthFunc = f then [] else
        [GLCall.glDepthFunc f]) ∧
    (∀ (s : GLStateManager) (m : Nat),
      (s.SetPolygonMode m).2 = if s.commonState.polygonMode = m then [] else
        [GLCall.glPolygonMode GL_FRONT_AND_BACK m]) ∧
    (∀ (s : GLStateManager) (f : Nat),
      (s.SetCullFace f).2 = if s.commonState.cullFace = f then [] else
        [GLCall.glCullFace f]) ∧
    (∀ (s : GLStateManager) (m : Nat),
      (s.SetFrontFace m).2 = if s.commonState.frontFace = m then [] else
        [GLCall.glFrontFace m]) ∧
    (∀ (s : GLStateManager) (f : Bool),
      (s.SetDepthMask f).2 = if s.commonState.depthMask = f then [] else
        [GLCall.glDepthMask f]) ∧
    (∀ (s : GLStateManager) (b : GLBlend),
      (s.SetBlendStates [b] true).2 =
        (if s.commonState.colorMask = b.colorMask then [] else
          [GLCall.glColorMask b.colorMask.r b.colorMask.g b.colorMask.b b.colorMask.a]) ++
        [GLCall.glBlendFuncSeparate b.srcColor b.destColor b.srcAlpha b.destAlpha]) ∧
    (∀ (s : GLStateManager) (t : GLBufferTarget) (h : Nat),
      (s.ForcedBindBuffer t h).2 = [GLCall.glBindBuffer t h]) ∧
    (∀ (s : GLStateManager) (t : GLTextureTarget) (h : Nat),
      (s.ForcedBindTexture t h).2 = [GLCall.glBindTexture t h]) ∧
    (∀ (s : GLStateManager) (t : GLBufferTarget) (i h : Nat),
      (s.BindBufferBase t i h).2 = [GLCall.glBindBufferBase t i h]) ∧
    (∀ (s : GLStateManager) (h : Nat),
      (s.BindVertexArray h).2 = [GLCall.glBindVertexArray h]) ∧
    (∀ (s : GLStateManager) (l : Nat),
      (s.ActiveTexture l).2 = if s.activeTexture = l then [] else
        [GLCall.glActiveTexture l]) ∧
    (∀ (s : GLStateManager) (st : GLStencil),
      s.commonState.stencilFront = st →
      (s.SetStencilState GL_FRONT st).2 = []) ∧
    (∀ (s : GLStateManager) (st : GLStencil),
      s.commonState.stencilBack = st →
      (s.SetStencilState GL_BACK st).2 = []) ∧
    (∀ (s : GLStateManager) (st : GLStencil),
      s.commonState.stencilFront = st → s.commonState.stencilBack = st →
      (s.SetStencilState GL_FRONT_AND_BACK st).2 = []) ∧
    (∀ (s : GLStateManager) (c : Nat) (v : Bool) (rest : List (Nat × Bool)),
      s.valueStack = (c, v) :: rest → s.renderStateValues c = v →
      s.PopState.2 = []) ∧
    (∀ (s : GLStateManager) (t : GLBufferTarget) (b : Nat)
        (rest : List (GLBufferTarget × Nat)),
      s.boundBufferStack = (t, b) :: rest → s.boundBuffers t = b →
      s.PopBoundBuffer.2 = []) ∧
    (∀ (s : GLStateManager) (layer : Nat) (target : GLTextureTarget) (tex : Nat)
        (rest : List (Nat × GLTextureTarget × Nat)),
      s.boundTextureStack = (layer, target, tex) :: rest →
      s.activeTexture = layer → s.textureLayers layer target = tex →
      s.PopBoundTexture.2 = []) ∧
    (∀ (s : GLStateManager) (p : Nat) (rest : List Nat),
      s.boundProgramStack = p :: rest → s.boundProgram = p →
      s.PopShaderProgram.2 = []) := by
  refine ⟨?_, ?_, ?_, ?_, ?_, ?_, ?_, ?_, ?_, ?_, ?_, ?_, ?_, ?_, ?_, ?_,
    ?_, ?_, ?_, ?_, ?_, ?_⟩
  · intro s c b
    by_cases h : s.renderStateValues c = b <;> simp [GLStateManager.Set, h]
  · intro s t h
    by_cases hh : s.boundBuffers t = h <;> simp [GLStateManager.BindBuffer, hh]
  · intro s t h
    by_cases hh : s.textureLayers s.activeTexture t = h <;>
      simp [GLStateManager.BindTexture, hh]
  · intro s p
    by_cases h : s.boundProgram = p <;> simp [GLStateManager.BindShaderProgram, h]
  · intro s f
    by_cases h : s.commonState.depthFunc = f <;> simp [GLStateManager.SetDepthFunc, h]
  · intro s m
    by_cases h : s.commonState.polygonMode = m <;> simp [GLStateManager.SetPolygonMode, h]
  · intro s f
    by_cases h : s.commonState.cullFace = f <;> simp [GLStateManager.SetCullFace, h]
  · intro s m
    by_cases h : s.commonState.frontFace = m <;> simp [GLStateManager.SetFrontFace, h]
  · intro s f
    by_cases h : s.commonState.depthMask = f <;> simp [GLStateManager.SetDepthMask, h]
  · intro s b
    by_cases h : s.commonState.colorMask = b.colorMask <;>
      simp [GLStateManager.SetBlendStates, h]
  · intro s t h
    rfl
  · intro s t h
    rfl
  · intro s t i h
    rfl
  · intro s h
    rfl
  · intro s l
    by_cases h : s.activeTexture = l <;> simp [GLStateManager.ActiveTexture, h]
  · intro s st h
    show (setStencilFace GL_FRONT s.commonState.stencilFront st).2 = []
    rw [h, setStencilFace_calls]
    simp
  · intro s st h
    show (setStencilFace GL_BACK s.commonState.stencilBack st).2 = []
    rw [h, setStencilFace_calls]
    simp
  · intro s st hf hb
    show ((setStencilFace GL_FRONT s.commonState.stencilFront st).2 ++
        (setStencilFace GL_BACK s.commonState.stencilBack st).2) = []
    rw [hf, hb, setStencilFace_calls, setStencilFace_calls]
    simp
  · intro s c v rest hstack hval
    simp only [GLStateManager.PopState, hstack]
    rw [set_calls, if_pos hval]
  · intro s t b rest hstack hval
    simp only [GLStateManager.PopBoundBuffer, hstack]
    rw [bindBuffer_calls, if_pos hval]
  · intro s layer target tex rest hstack hact hmir
    simp only [GLStateManager.PopBoundTexture, hstack]
    have h1 : s.ActiveTexture layer = (s, []) := by
      simp [GLStateManager.ActiveTexture, hact]
    rw [h1]
    simp [bindTexture_calls, hact, hmir]
  · intro s p rest hstack hval
    simp only [GLStateManager.PopShaderProgram, hstack]
    rw [bindProgram_calls, if_pos hval]

/-- C1 (witness): the hypothesis-bearing parts of the amended filter statement
evaluated at concrete inputs: an unchanged stencil application on each face
issues nothing, and every push/pop pair with no intervening mutation on a
fresh manager issues nothing on pop. -/
theorem mutation_redundancy_filter_amended_witness :
    ((freshManager.SetStencilState GL_FRONT stencilZero).2 = []) ∧
    ((freshManager.SetStencilState GL_BACK stencilZero).2 = []) ∧
    ((freshManager.SetStencilState GL_FRONT_AND_BACK stencilZero).2 = []) ∧
    (((freshManager.PushState 3).1.PopState).2 = []) ∧
    (((freshManager.PushBoundBuffer GLBufferTarget.ARRAY_BUFFER).1.PopBoundBuffer).2 = []) ∧
    (((freshManager.PushBoundTexture 0 GLTextureTarget.TEXTURE_2D).1.PopBoundTexture).2 = []) ∧
    ((freshManager.PushShaderProgram.1.PopShaderProgram).2 = []) := by
  obtain ⟨-, -, -, -, -, -, -, -, -, -, -, -, -, -, -, hSF, hSB, hSFB, hPS, hPB,
    hPT, hPP⟩ := mutation_redundancy_filter_amended
  exact ⟨hSF freshManager stencilZero rfl,
    hSB freshManager stencilZero rfl,
    hSFB freshManager stencilZero rfl rfl,
    hPS (freshManager.PushState 3).1 3 false [] rfl rfl,
    hPB (freshManager.PushBoundBuffer GLBufferTarget.ARRAY_BUFFER).1
      GLBufferTarget.ARRAY_BUFFER 0 [] rfl rfl,
    hPT (freshManager.PushBoundTexture 0 GLTextureTarget.TEXTURE_2D).1
      0 GLTextureTarget.TEXTURE_2D 0 [] rfl rfl rfl,
    hPP freshManager.PushShaderProgram.1 0 [] rfl rfl⟩


end LLGL
